import Mathlib

/-!
# Verification of the Crimson City player-session engine (src/main.py)

Shallow embedding of the player data model, the JSON player store, the world
graph data, and the state effects of the message/voice/button/admin handlers
of `src/main.py`.  Conventions:

* Every Python handler reads the whole store with `load_player_data()` and
  writes it back with `save_player_data(...)`.  We thread the file contents as
  an explicit `Store` argument (the "load") and return the contents written
  back (the "save"); a handler that never calls `save_player_data` returns its
  input store unchanged.
* Telegram user ids are Python ints, and the JSON store is keyed by `str(id)`.
  `str` is injective on ints, so we use `String` ids throughout, with
  `ADMIN_USER_ID` the decimal string of the configured admin id.
* Python ints are unbounded, so stats and currency are `Int`.
* An uncaught Python exception inside a handler is modelled as
  `Except.error k` (carrying the offending key); store writes that happened
  before the raise are kept, exactly as in the source, where
  `save_player_data` may run before a `KeyError` is raised.
* Outbound Telegram messages and the process-local `context.user_data`
  conversation cursor are transport concerns; only the parts of the rendered
  output that the properties mention (the god-presence condition and the
  visible sub-location list of `main_look`) are modelled, as separate
  definitions.
-/

/-- The three stats of a player (`stats` dict in `get_player_state`). -/
structure Stats where
  charm : Int
  intellect : Int
  street_smarts : Int
deriving Repr, DecidableEq

/-- One player record, field for field the dict built in `get_player_state`. -/
structure Player where
  lang : String
  approved : Bool
  pending_approval : Bool
  voice_file_id : Option String
  character_created : Bool
  name : Option String
  profession : Option String
  location : String
  inventory : List String
  stats : Stats
  currency : Int
  is_vip : Bool
deriving Repr, DecidableEq

/-- The persisted collection of `players.json`: a JSON object keyed by the
decimal player id.  Modelled as an association list with unique keys (JSON
object keys are unique). -/
abbrev Store := List (String × Player)

/-- Dict lookup `players[k]` / `k in players`: the value at the first (only)
binding of `k`. -/
def Store.get : Store → String → Option Player
  | [], _ => none
  | (k', v') :: rest, k => if k' = k then some v' else Store.get rest k

/-- Dict assignment `players[k] = v`: replace the existing binding in place,
or append a new one. -/
def Store.set : Store → String → Player → Store
  | [], k, v => [(k, v)]
  | (k', v') :: rest, k, v =>
    if k' = k then (k, v) :: rest else (k', v') :: Store.set rest k v

/-- Dict deletion `del players[k]`: remove the binding of `k` (the caller
checks presence first; on a missing key Python raises `KeyError`). -/
def Store.del : Store → String → Store
  | [], _ => []
  | (k', v') :: rest, k => if k' = k then rest else (k', v') :: Store.del rest k

/-- `ADMIN_USER_ID` of the configuration (decimal string of the default
`123456789`). -/
def ADMIN_USER_ID : String := "123456789"

/-- `is_admin(user_id)`. -/
def is_admin (user_id : String) : Bool := user_id == ADMIN_USER_ID

/-- The default record inserted by `get_player_state` for an unknown id. -/
def defaultPlayer : Player :=
  { lang := "en"
    approved := false
    pending_approval := false
    voice_file_id := none
    character_created := false
    name := none
    profession := none
    location := "downtown"
    inventory := []
    stats := { charm := 1, intellect := 1, street_smarts := 1 }
    currency := 100
    is_vip := false }

/-- `get_player_state(user_id)`: loads the store and returns the record for
`user_id`, or the default record when the id is unknown.  In the source the
default is inserted into the *locally loaded* dict, which is then discarded —
`save_player_data` is never called here — so the observable behaviour is a
pure lookup-or-default on the file contents. -/
def get_player_state (store : Store) (user_id : String) : Player :=
  match Store.get store user_id with
  | some st => st
  | none => defaultPlayer

/-- `update_player_state(user_id, state)`: load the whole collection, set the
one key, save the whole collection. -/
def update_player_state (store : Store) (user_id : String) (state : Player) :
    Store :=
  let players := store
  Store.set players user_id state

-- World graph data: `GAME_MAP`, `LOCATIONS`, `NPCS` of src/main.py.

/-- An entry of `GAME_MAP` (a district). -/
structure District where
  name_en : String
  name_fa : String
  description_en : String
  description_fa : String
  connections : List String
  locations : List String
deriving Repr, DecidableEq

/-- An entry of `LOCATIONS` (a sub-location).  `requires_vip` is read in the
source with `.get('requires_vip', False)`, so the absent key is `false`. -/
structure SubLocation where
  name_en : String
  name_fa : String
  description_en : String
  description_fa : String
  npcs : List String
  requires_vip : Bool
deriving Repr, DecidableEq

/-- An entry of `NPCS`. -/
structure NPC where
  name_en : String
  name_fa : String
  dialogue_en : String
  dialogue_fa : String
deriving Repr, DecidableEq

def downtown : District :=
  { name_en := "Downtown", name_fa := "مرکز شهر"
    description_en := "Towering skyscrapers and luxury apartments dominate the skyline. The air hums with power and ambition."
    description_fa := "آسمان‌خراش‌های سر به فلک کشیده و آپارتمان‌های لوکس، خط افق را تسخیر کرده‌اند. هوا از قدرت و جاه‌طلبی لبریز است."
    connections := ["neon_district", "industrial_zone", "the_plaza"]
    locations := ["the_onyx_bar", "vip_lounge"] }

def neon_district : District :=
  { name_en := "Neon District", name_fa := "منطقه نئون"
    description_en := "A vibrant, chaotic district buzzing with nightlife. Music spills from every doorway."
    description_fa := "منطقه‌ای پرجنب‌وجوش و پرهرج‌ومرج که با زندگی شبانه می‌تپد. موسیقی از هر دری به بیرون می‌ریزد."
    connections := ["downtown"]
    locations := [] }

def industrial_zone : District :=
  { name_en := "Industrial Zone", name_fa := "منطقه صنعتی"
    description_en := "A gritty, working-class area of factories and warehouses. The smell of metal and sweat hangs in the air."
    description_fa := "منطقه‌ای زمخت و کارگری پر از کارخانه و انبار. بوی فلز و عرق در هوا پیچیده است."
    connections := ["downtown"]
    locations := [] }

def the_plaza : District :=
  { name_en := "The Plaza", name_fa := "پلازا"
    description_en := "An open-air plaza with a grand fountain at its center. A place for the public to gather."
    description_fa := "یک میدانگاه با یک فواره بزرگ در مرکز آن. مکانی برای تجمع مردم."
    connections := ["downtown"]
    locations := [] }

/-- The `GAME_MAP` dict as a lookup function. -/
def GAME_MAP (k : String) : Option District :=
  if k = "downtown" then some downtown
  else if k = "neon_district" then some neon_district
  else if k = "industrial_zone" then some industrial_zone
  else if k = "the_plaza" then some the_plaza
  else none

def the_onyx_bar : SubLocation :=
  { name_en := "The Onyx Bar", name_fa := "بار اونیکس"
    description_en := "A classy, dimly lit bar where the city\x27s elite come to make deals in the shadows."
    description_fa := "یک بار شیک و کم‌نور که نخبگان شهر برای انجام معاملات در سایه‌ها به آنجا می‌آیند."
    npcs := ["slick_the_bartender"]
    requires_vip := false }

def vip_lounge : SubLocation :=
  { name_en := "The VIP Lounge", name_fa := "سالن VIP"
    description_en := "An exclusive, opulent lounge accessible only to the city\x27s most influential."
    description_fa := "یک سالن مجلل و انحصاری که فقط برای افراد با نفوذ شهر قابل دسترسی است."
    npcs := []
    requires_vip := true }

/-- The `LOCATIONS` dict as a lookup function. -/
def LOCATIONS (k : String) : Option SubLocation :=
  if k = "the_onyx_bar" then some the_onyx_bar
  else if k = "vip_lounge" then some vip_lounge
  else none

def slick_the_bartender : NPC :=
  { name_en := "Slick, the Bartender", name_fa := "اسلیک، متصدی بار"
    dialogue_en := "\x27What can I get for you? See a lot of faces in here. Some win, some lose. The city always collects.\x27"
    dialogue_fa := "\x27چی میل داری؟ چهره‌های زیادی اینجا می‌بینم. بعضی‌ها می‌برن، بعضی‌ها می‌بازن. شهر همیشه حقشو می‌گیره.\x27" }

/-- The `NPCS` dict as a lookup function. -/
def NPCS (k : String) : Option NPC :=
  if k = "slick_the_bartender" then some slick_the_bartender else none

-- Handlers: state effects of message_handler, voice_handler, button_handler,
-- and the admin commands the claims reference.

/-- `message_handler`: handles a text message.  Takes and returns the
process-local conversation cursor `context.user_data['next_step']`.
Messages from unapproved players are ignored; with the
`create_character_name` cursor set, the message text becomes the character
name and the cursor is cleared. -/
def message_handler (store : Store) (user_id : String)
    (next_step : Option String) (text : String) :
    Store × Option String :=
  let player_state := get_player_state store user_id
  if player_state.approved = false then (store, next_step)
  else if next_step = some "create_character_name" then
    let player_state := { player_state with name := some text }
    (update_player_state store user_id player_state, none)
  else (store, next_step)

/-- `voice_handler`: a voice submission.  If the player is already approved or
pending, reply "already submitted" and return without touching the store;
otherwise set `pending_approval` and `voice_file_id` and save. -/
def voice_handler (store : Store) (user_id : String) (file_id : String) :
    Store :=
  let player_state := get_player_state store user_id
  if player_state.approved || player_state.pending_approval then store
  else
    let player_state :=
      { player_state with pending_approval := true
                          voice_file_id := some file_id }
    update_player_state store user_id player_state

/-- The callback-data vocabulary of `button_handler`, decoded from the string
prefixes the source matches on (`approve_<id>`, `reject_<id>`,
`set_lang_<code>`, `set_prof_<name>`, `main_*`, `move_to_<key>`,
`talk_<key>`). -/
inductive ButtonData where
  | approve (target : String)
  | reject (target : String)
  | set_lang (lang_code : String)
  | set_prof (profession : String)
  | main_look
  | main_move
  | main_profile
  | main_inventory
  | main_language
  | main_back
  | move_to (destination_key : String)
  | talk (npc_key : String)
deriving Repr, DecidableEq

/-- The sub-location lines of the `main_look` branch: iterate over
`location_info['locations']`, look each key up in `LOCATIONS` (a missing key
raises `KeyError`), and skip an entry whose `requires_vip` holds when the
viewer is not VIP. -/
def visible_filter : List String → Bool → Except String (List String)
  | [], _ => Except.ok []
  | loc_key :: rest, vip =>
    match LOCATIONS loc_key with
    | none => Except.error loc_key
    | some sub =>
      match visible_filter rest vip with
      | Except.error e => Except.error e
      | Except.ok tail =>
        Except.ok (if sub.requires_vip && !vip then tail else loc_key :: tail)

/-- The list of sub-location keys shown to `player_state` by `main_look`
(`Except.error` models the `KeyError` of an unresolvable graph id). -/
def look_sublocations (player_state : Player) : Except String (List String) :=
  match GAME_MAP player_state.location with
  | none => Except.error player_state.location
  | some location_info =>
    visible_filter location_info.locations player_state.is_vip

/-- The god-presence condition of `main_look`: the admin record is resolved
with `get_player_state` (load-or-default) and the overlay line is appended
when the admin's location equals the viewer's and the viewer is not the
admin. -/
def look_god_presence (store : Store) (user_id : String) : Bool :=
  let player_state := get_player_state store user_id
  let current_location_key := player_state.location
  let admin_state := get_player_state store ADMIN_USER_ID
  (admin_state.location == current_location_key) && !(is_admin user_id)

/-- `button_handler`: the state effect on the store of one button press,
together with `Except.error k` when the branch raises a `KeyError` on graph
key `k` (any store write already performed is kept, as in the source).
Messages, keyboards and the cursor are transport effects and not part of the
returned state. -/
def button_handler (store : Store) (user_id : String) (data : ButtonData) :
    Store × Except String Unit :=
  let player_state := get_player_state store user_id
  match data with
  | ButtonData.approve target =>
    if is_admin user_id then
      let target_player_state := get_player_state store target
      let target_player_state :=
        { target_player_state with approved := true, pending_approval := false }
      (update_player_state store target target_player_state, Except.ok ())
    else (store, Except.ok ())
  | ButtonData.reject target =>
    if is_admin user_id then
      -- `del players[target]` raises KeyError before any save when the id
      -- is absent; otherwise the binding is removed and the store saved.
      match Store.get store target with
      | none => (store, Except.error target)
      | some _ => (Store.del store target, Except.ok ())
    else (store, Except.ok ())
  | ButtonData.set_lang lang_code =>
    (update_player_state store user_id { player_state with lang := lang_code },
     Except.ok ())
  | ButtonData.set_prof profession =>
    -- No guard: the branch runs for any player, sets the profession string,
    -- bumps the matching stat by 2, and marks the character created.
    let player_state := { player_state with profession := some profession }
    let player_state :=
      if profession = "hustler" then
        { player_state with stats :=
            { player_state.stats with
                street_smarts := player_state.stats.street_smarts + 2 } }
      else if profession = "intellectual" then
        { player_state with stats :=
            { player_state.stats with
                intellect := player_state.stats.intellect + 2 } }
      else if profession = "charmer" then
        { player_state with stats :=
            { player_state.stats with charm := player_state.stats.charm + 2 } }
      else player_state
    let player_state := { player_state with character_created := true }
    (update_player_state store user_id player_state, Except.ok ())
  | ButtonData.main_look =>
    (store, (look_sublocations player_state).map fun _ => ())
  | ButtonData.main_move =>
    (store,
     match GAME_MAP player_state.location with
     | none => Except.error player_state.location
     | some _ => Except.ok ())
  | ButtonData.main_profile => (store, Except.ok ())
  | ButtonData.main_inventory => (store, Except.ok ())
  | ButtonData.main_language => (store, Except.ok ())
  | ButtonData.main_back => (store, Except.ok ())
  | ButtonData.move_to destination_key =>
    -- The location is overwritten and SAVED before `GAME_MAP[destination_key]`
    -- is consulted for the success message; an unresolvable key raises only
    -- after the save, and no adjacency check exists on any path.
    let player_state := { player_state with location := destination_key }
    let store := update_player_state store user_id player_state
    match GAME_MAP destination_key with
    | none => (store, Except.error destination_key)
    | some _ => (store, Except.ok ())
  | ButtonData.talk npc_key =>
    -- `NPCS[npc_key]` raises on an unknown key; talking never writes state.
    match NPCS npc_key with
    | none => (store, Except.error npc_key)
    | some _ => (store, Except.ok ())

/-- `player_info_command`: admin-only.  Resolves the target with
`get_player_state` and dumps the record; `get_player_state` never saves, so
the store on disk is returned unchanged.  `none` output models the silent
refusal of a non-admin caller. -/
def player_info_command (store : Store) (caller : String) (target : String) :
    Store × Option Player :=
  if is_admin caller then (store, some (get_player_state store target))
  else (store, none)

/-- `give_money_command`: admin-only.  `players[target]['currency'] += amount`
with no bounds check of any kind; an unknown target is reported and nothing
is saved. -/
def give_money_command (store : Store) (caller : String) (target : String)
    (amount : Int) : Store :=
  if is_admin caller then
    let players := store
    match Store.get players target with
    | none => store
    | some st =>
      Store.set players target { st with currency := st.currency + amount }
  else store

-- Basic lemmas about the store operations and load-or-default.

theorem Store.get_set_self (m : Store) (k : String) (v : Player) :
    Store.get (Store.set m k v) k = some v := by
  induction m with
  | nil => simp [Store.set, Store.get]
  | cons hd tl ih =>
    obtain ⟨k0, v0⟩ := hd
    by_cases h : k0 = k
    · simp [Store.set, Store.get, h]
    · simp [Store.set, Store.get, h, ih]

theorem Store.get_set_ne (m : Store) (k q : String) (v : Player) (h : q ≠ k) :
    Store.get (Store.set m k v) q = Store.get m q := by
  have hkq : ¬ k = q := fun hk => h hk.symm
  induction m with
  | nil => simp [Store.set, Store.get, hkq]
  | cons hd tl ih =>
    obtain ⟨k0, v0⟩ := hd
    by_cases h0 : k0 = k
    · subst h0
      simp [Store.set, Store.get, hkq]
    · by_cases hq : k0 = q
      · simp [Store.set, Store.get, h0, hq, h]
      · simp [Store.set, Store.get, h0, hq, ih]

theorem Store.get_eq_none_of_not_mem (m : Store) (k : String)
    (h : k ∉ m.map Prod.fst) : Store.get m k = none := by
  induction m with
  | nil => simp [Store.get]
  | cons hd tl ih =>
    obtain ⟨k0, v0⟩ := hd
    simp only [List.map_cons, List.mem_cons] at h
    push_neg at h
    have hne : ¬ k0 = k := fun h0 => h.1 h0.symm
    simp [Store.get, hne, ih h.2]

theorem Store.get_del_self (m : Store) (k : String)
    (hnd : (m.map Prod.fst).Nodup) : Store.get (Store.del m k) k = none := by
  induction m with
  | nil => simp [Store.del, Store.get]
  | cons hd tl ih =>
    obtain ⟨k0, v0⟩ := hd
    simp only [List.map_cons, List.nodup_cons] at hnd
    by_cases h0 : k0 = k
    · subst h0
      simpa [Store.del] using Store.get_eq_none_of_not_mem tl k0 hnd.1
    · simp [Store.del, Store.get, h0, ih hnd.2]

theorem get_player_state_of_get (store : Store) (user_id : String)
    (st : Player) (h : Store.get store user_id = some st) :
    get_player_state store user_id = st := by
  simp [get_player_state, h]

theorem get_player_state_of_none (store : Store) (user_id : String)
    (h : Store.get store user_id = none) :
    get_player_state store user_id = defaultPlayer := by
  simp [get_player_state, h]

-- Claim theorems.

/-- C1: the claim says the move-to-X action succeeds only when X is a direct
connection of the player's current location, and that for a non-connection X
the location field is unchanged.  The code has no adjacency check: for a
character-created player at `neon_district`, the button `move_to_`
`industrial_zone` — not a connection of `neon_district` — saves
`location = "industrial_zone"` and reports success. -/
theorem C1_move_to_nonadjacent_succeeds :
    "industrial_zone" ∉ neon_district.connections ∧
    (get_player_state
        (button_handler
          [("7", { defaultPlayer with
                     approved := true, character_created := true,
                     name := some "Ray", location := "neon_district" })]
          "7" (ButtonData.move_to "industrial_zone")).1 "7").location
      = "industrial_zone" ∧
    (button_handler
        [("7", { defaultPlayer with
                   approved := true, character_created := true,
                   name := some "Ray", location := "neon_district" })]
        "7" (ButtonData.move_to "industrial_zone")).2 = Except.ok () := by
  refine ⟨by decide, rfl, rfl⟩

/-- C2: the claim says a handler action whose World-Graph id does not resolve
performs no state mutation.  In the `move_to_` branch the new location is
saved *before* `GAME_MAP[destination_key]` is consulted, so for the
unresolvable id `"atlantis"` the stored location becomes `"atlantis"` even
though the handler then raises. -/
theorem C2_move_to_unresolvable_still_mutates :
    GAME_MAP "atlantis" = none ∧
    (get_player_state
        (button_handler
          [("7", { defaultPlayer with
                     approved := true, character_created := true,
                     name := some "Ray" })]
          "7" (ButtonData.move_to "atlantis")).1 "7").location = "atlantis" ∧
    (button_handler
        [("7", { defaultPlayer with
                   approved := true, character_created := true,
                   name := some "Ray" })]
        "7" (ButtonData.move_to "atlantis")).2 = Except.error "atlantis" := by
  refine ⟨rfl, rfl, rfl⟩

/-- C3: the claim says that in a character-created state the chosen
profession's stat equals 1 + 2, the delta applied exactly once regardless of
how many times the profession-selection action was delivered.  The
`set_prof_` branch has no set-once guard: delivering `set_prof_hustler`
twice to an approved, named player leaves `street_smarts = 5`
(1 + 2 + 2), not 3, with `character_created = true`. -/
theorem C3_profession_delta_applied_twice :
    (get_player_state
        (button_handler
          (button_handler
            [("7", { defaultPlayer with approved := true, name := some "Ray" })]
            "7" (ButtonData.set_prof "hustler")).1
          "7" (ButtonData.set_prof "hustler")).1 "7").character_created
      = true ∧
    (get_player_state
        (button_handler
          (button_handler
            [("7", { defaultPlayer with approved := true, name := some "Ray" })]
            "7" (ButtonData.set_prof "hustler")).1
          "7" (ButtonData.set_prof "hustler")).1 "7").profession
      = some "hustler" ∧
    (get_player_state
        (button_handler
          (button_handler
            [("7", { defaultPlayer with approved := true, name := some "Ray" })]
            "7" (ButtonData.set_prof "hustler")).1
          "7" (ButtonData.set_prof "hustler")).1 "7").stats.street_smarts
      = 5 ∧
    ¬ (get_player_state
        (button_handler
          (button_handler
            [("7", { defaultPlayer with approved := true, name := some "Ray" })]
            "7" (ButtonData.set_prof "hustler")).1
          "7" (ButtonData.set_prof "hustler")).1 "7").stats.street_smarts
      = 1 + 2 := by
  decide

/-- C4 counterexample: the claim says the admin playerInfo query on an
unknown id creates a default record in the player store, so that the store
afterwards contains an entry for that id.  On the empty store, querying id
`"42"` returns the defaulted record but the store stays empty: no entry for
`"42"` exists after the query. -/
theorem C4_counterexample_no_record_created :
    (player_info_command [] ADMIN_USER_ID "42").2 = some defaultPlayer ∧
    (player_info_command [] ADMIN_USER_ID "42").1 = [] ∧
    Store.get (player_info_command [] ADMIN_USER_ID "42").1 "42" = none :=
  ⟨rfl, rfl, rfl⟩

/-- C4 (amended): for every unknown player id, the admin playerInfo query
returns the full defaulted Player record but performs no store write: the
stored collection is returned unchanged and still contains no entry for that
id (`get_player_state` fabricates the default only in its locally loaded
dict and never saves). -/
theorem C4_player_info_unknown_id (store : Store) (target : String)
    (h : Store.get store target = none) :
    (player_info_command store ADMIN_USER_ID target).1 = store ∧
    Store.get (player_info_command store ADMIN_USER_ID target).1 target
      = none ∧
    (player_info_command store ADMIN_USER_ID target).2 = some defaultPlayer := by
  refine ⟨?_, ?_, ?_⟩ <;>
    simp [player_info_command, is_admin, get_player_state, h]

/-- C4 witness: the amended statement instantiated on the empty store and
id `"42"`. -/
theorem C4_player_info_unknown_id_witness :
    Store.get ([] : Store) "42" = none ∧
    ([] : Store) = [] ∧
    (player_info_command [] ADMIN_USER_ID "42").2 = some defaultPlayer := by
  have h := C4_player_info_unknown_id [] "42" rfl
  exact ⟨rfl, rfl, h.2.2⟩

/-- C5: writing one player's record (load the collection, set that key, save)
leaves every other key's record exactly as it was in the loaded collection. -/
theorem C5_update_preserves_other_records (m : Store) (p q : String)
    (s : Player) (h : q ≠ p) :
    Store.get (update_player_state m p s) q = Store.get m q := by
  simpa [update_player_state] using Store.get_set_ne m p q s h

/-- C5 witness: updating player `"2"` does not disturb player `"1"`. -/
theorem C5_update_preserves_other_records_witness :
    ("1" : String) ≠ "2" ∧
    Store.get
        (update_player_state [("1", defaultPlayer)] "2"
          { defaultPlayer with currency := 0 }) "1"
      = Store.get [("1", defaultPlayer)] "1" :=
  ⟨by decide,
   C5_update_preserves_other_records [("1", defaultPlayer)] "2" "1"
     { defaultPlayer with currency := 0 } (by decide)⟩

/-- Helper: an already approved or pending player's voice submission replies
without saving anything. -/
theorem voice_handler_noop (store : Store) (uid v : String)
    (h : (get_player_state store uid).approved = true ∨
         (get_player_state store uid).pending_approval = true) :
    voice_handler store uid v = store := by
  unfold voice_handler
  rcases h with h | h <;> simp [h]

/-- C6: a voice submission in a pending or approved (or beyond) state leaves
the stored record unchanged — `voice_file_id` keeps its first value and the
lifecycle flags do not move — and handling the same submission twice from any
state equals handling it once. -/
theorem C6_voice_resubmission (store : Store) (uid v : String) :
    ((get_player_state store uid).approved = true ∨
        (get_player_state store uid).pending_approval = true →
      voice_handler store uid v = store) ∧
    voice_handler (voice_handler store uid v) uid v
      = voice_handler store uid v := by
  refine ⟨voice_handler_noop store uid v, ?_⟩
  by_cases ha : (get_player_state store uid).approved = true
  · rw [voice_handler_noop store uid v (Or.inl ha)]
    exact voice_handler_noop store uid v (Or.inl ha)
  · by_cases hp : (get_player_state store uid).pending_approval = true
    · rw [voice_handler_noop store uid v (Or.inr hp)]
      exact voice_handler_noop store uid v (Or.inr hp)
    · rw [Bool.not_eq_true] at ha hp
      have h1 : voice_handler store uid v =
          Store.set store uid
            { get_player_state store uid with
                pending_approval := true, voice_file_id := some v } := by
        unfold voice_handler
        simp [ha, hp, update_player_state]
      have h2 : get_player_state (Store.set store uid
          { get_player_state store uid with
              pending_approval := true, voice_file_id := some v }) uid =
          { get_player_state store uid with
              pending_approval := true, voice_file_id := some v } :=
        get_player_state_of_get _ _ _ (Store.get_set_self _ _ _)
      rw [h1]
      unfold voice_handler
      simp [h2]

/-- C6 witness: a pending player's resubmission is a no-op, and a fresh
player's duplicated submission equals a single one. -/
theorem C6_voice_resubmission_witness :
    voice_handler [("5", { defaultPlayer with pending_approval := true })]
        "5" "clip"
      = [("5", { defaultPlayer with pending_approval := true })] ∧
    voice_handler (voice_handler [] "5" "clip") "5" "clip"
      = voice_handler [] "5" "clip" :=
  ⟨(C6_voice_resubmission
      [("5", { defaultPlayer with pending_approval := true })] "5" "clip").1
      (Or.inr (by decide)),
   (C6_voice_resubmission [] "5" "clip").2⟩

/-- C7: the admin reject button on a pending player deletes the binding
outright, and a subsequent load-or-default lookup yields the freshly
defaulted record — language en, not approved and not pending, location
downtown, stats all 1, currency 100. -/
theorem C7_reject_purges_record (store : Store) (p : String) (st : Player)
    (hnd : (store.map Prod.fst).Nodup)
    (hp : Store.get store p = some st)
    (_hpend : st.pending_approval = true) :
    Store.get (button_handler store ADMIN_USER_ID (ButtonData.reject p)).1 p
      = none ∧
    get_player_state
        (button_handler store ADMIN_USER_ID (ButtonData.reject p)).1 p
      = defaultPlayer ∧
    defaultPlayer.lang = "en" ∧ defaultPlayer.approved = false ∧
    defaultPlayer.pending_approval = false ∧
    defaultPlayer.location = "downtown" ∧
    defaultPlayer.stats = { charm := 1, intellect := 1, street_smarts := 1 } ∧
    defaultPlayer.currency = 100 := by
  have hbh : (button_handler store ADMIN_USER_ID (ButtonData.reject p)).1
      = Store.del store p := by
    unfold button_handler
    simp [is_admin, hp]
  have hnone := Store.get_del_self store p hnd
  rw [hbh]
  exact ⟨hnone, get_player_state_of_none _ _ hnone, rfl, rfl, rfl, rfl, rfl,
    rfl⟩

/-- C7 witness: rejecting the pending player `"5"` of a one-record store. -/
theorem C7_reject_purges_record_witness :
    Store.get
        (button_handler [("5", { defaultPlayer with pending_approval := true })]
          ADMIN_USER_ID (ButtonData.reject "5")).1 "5" = none ∧
    get_player_state
        (button_handler [("5", { defaultPlayer with pending_approval := true })]
          ADMIN_USER_ID (ButtonData.reject "5")).1 "5" = defaultPlayer := by
  have h := C7_reject_purges_record
      [("5", { defaultPlayer with pending_approval := true })] "5"
      { defaultPlayer with pending_approval := true } (by decide) rfl rfl
  exact ⟨h.1, h.2.1⟩

/-- C9: give-money on an existing record adds the (possibly negative) amount
to the stored currency with exact integer arithmetic and no floor. -/
theorem C9_give_money_exact (m : Store) (p : String) (st : Player)
    (amount : Int) (hp : Store.get m p = some st) :
    Store.get (give_money_command m ADMIN_USER_ID p amount) p
      = some { st with currency := st.currency + amount } := by
  unfold give_money_command
  simp [is_admin, hp, Store.get_set_self]

/-- C9 witness: `give-money -50` on currency 100 yields 50, and `-250` drives
the balance to -150 < 0. -/
theorem C9_give_money_exact_witness :
    Store.get (give_money_command [("9", defaultPlayer)] ADMIN_USER_ID "9"
        (-50)) "9" = some { defaultPlayer with currency := 50 } ∧
    Store.get (give_money_command [("9", defaultPlayer)] ADMIN_USER_ID "9"
        (-250)) "9" = some { defaultPlayer with currency := -150 } ∧
    (-150 : Int) < 0 := by
  have h1 := C9_give_money_exact [("9", defaultPlayer)] "9" defaultPlayer
      (-50) rfl
  have h2 := C9_give_money_exact [("9", defaultPlayer)] "9" defaultPlayer
      (-250) rfl
  refine ⟨?_, ?_, by decide⟩
  · rw [h1]; decide
  · rw [h2]; decide

/-- C10: when the configured admin id has no record, the Look handler's
god-presence condition resolves the admin through load-or-default — location
downtown — so every non-admin viewer standing at downtown gets the overlay. -/
theorem C10_god_presence_for_defaulted_admin (store : Store) (uid : String)
    (hadmin : Store.get store ADMIN_USER_ID = none)
    (hne : uid ≠ ADMIN_USER_ID)
    (hloc : (get_player_state store uid).location = "downtown") :
    look_god_presence store uid = true := by
  simp [look_god_presence, get_player_state_of_none store ADMIN_USER_ID hadmin,
    hloc, is_admin, hne, defaultPlayer]

/-- C10 witness: the empty store (admin never interacted) and the defaulted
viewer `"7"` at downtown. -/
theorem C10_god_presence_for_defaulted_admin_witness :
    Store.get ([] : Store) ADMIN_USER_ID = none ∧
    look_god_presence [] "7" = true :=
  ⟨rfl, C10_god_presence_for_defaulted_admin [] "7" rfl (by decide) rfl⟩

/-- Helper: membership in the visible sub-location list produced by the
`main_look` loop — a key appears iff it is listed at the location and is not
VIP-gated away from the viewer. -/
theorem visible_filter_mem (keys : List String) (vip : Bool)
    (res : List String) (hres : visible_filter keys vip = Except.ok res)
    (k : String) (sub : SubLocation) (hk : LOCATIONS k = some sub) :
    k ∈ res ↔ k ∈ keys ∧ (sub.requires_vip && !vip) = false := by
  induction keys generalizing res with
  | nil =>
    simp only [visible_filter, Except.ok.injEq] at hres
    subst hres
    simp
  | cons k0 rest ih =>
    unfold visible_filter at hres
    cases h0 : LOCATIONS k0 with
    | none => rw [h0] at hres; cases hres
    | some sub0 =>
      rw [h0] at hres
      cases htail : visible_filter rest vip with
      | error e => rw [htail] at hres; cases hres
      | ok tail =>
        rw [htail] at hres
        simp only [Except.ok.injEq] at hres
        subst hres
        by_cases hkk : k = k0
        · subst hkk
          rw [hk] at h0
          obtain rfl : sub = sub0 := by exact Option.some.inj h0
          by_cases hc : (sub.requires_vip && !vip) = true
          · rw [if_pos hc]
            constructor
            · intro hmem
              have hf := ((ih tail htail).mp hmem).2
              rw [hc] at hf
              simp at hf
            · rintro ⟨-, hfalse⟩
              rw [hc] at hfalse
              simp at hfalse
          · rw [Bool.not_eq_true] at hc
            simp [hc, ih tail htail]
        · by_cases hc : (sub0.requires_vip && !vip) = true
          · simp only [hc, if_pos]
            rw [ih tail htail]
            simp [hkk]
          · rw [Bool.not_eq_true] at hc
            simp only [hc, Bool.false_eq_true, if_false, List.mem_cons, hkk,
              false_or]
            rw [ih tail htail]

/-- C8: with two player states equal up to `is_vip` at the same location, the
Look listing omits every `requires_vip` sub-location for the non-VIP state
and shows it for the VIP state, while unflagged sub-locations appear in
both. -/
theorem C8_look_vip_gating (st1 st2 : Player)
    (hloc : st1.location = st2.location)
    (h1 : st1.is_vip = false) (h2 : st2.is_vip = true)
    (loc : District) (hres : GAME_MAP st1.location = some loc)
    (subk : String) (hmem : subk ∈ loc.locations)
    (sub : SubLocation) (hsub : LOCATIONS subk = some sub)
    (vs1 vs2 : List String)
    (hv1 : look_sublocations st1 = Except.ok vs1)
    (hv2 : look_sublocations st2 = Except.ok vs2) :
    (sub.requires_vip = true → subk ∉ vs1 ∧ subk ∈ vs2) ∧
    (sub.requires_vip = false → subk ∈ vs1 ∧ subk ∈ vs2) := by
  unfold look_sublocations at hv1 hv2
  rw [hres, h1] at hv1
  rw [← hloc, hres, h2] at hv2
  have hm1 := visible_filter_mem loc.locations false vs1 hv1 subk sub hsub
  have hm2 := visible_filter_mem loc.locations true vs2 hv2 subk sub hsub
  constructor
  · intro hr
    constructor
    · intro hin
      have := (hm1.mp hin).2
      rw [hr] at this
      cases this
    · exact hm2.mpr ⟨hmem, by simp⟩
  · intro hr
    exact ⟨hm1.mpr ⟨hmem, by simp [hr]⟩, hm2.mpr ⟨hmem, by simp⟩⟩

/-- C8 witness: at downtown, the defaulted non-VIP viewer sees only
`the_onyx_bar`; flipping only `is_vip` adds `vip_lounge`. -/
theorem C8_look_vip_gating_witness :
    look_sublocations defaultPlayer = Except.ok ["the_onyx_bar"] ∧
    look_sublocations { defaultPlayer with is_vip := true }
      = Except.ok ["the_onyx_bar", "vip_lounge"] ∧
    "vip_lounge" ∉ ["the_onyx_bar"] ∧
    "vip_lounge" ∈ ["the_onyx_bar", "vip_lounge"] := by
  refine ⟨rfl, rfl, ?_, ?_⟩
  · have h := C8_look_vip_gating defaultPlayer
      { defaultPlayer with is_vip := true } rfl rfl rfl downtown rfl
      "vip_lounge" (by decide) vip_lounge rfl ["the_onyx_bar"]
      ["the_onyx_bar", "vip_lounge"] rfl rfl
    exact (h.1 rfl).1
  · decide
